import Mathlib

/-!
Verification development for the `backup-cards` orchestration core.

The definitions below are a shallow embedding of the Python sources:
`src/backend/monitor.py` (device matching), `src/backend/backup.py`
(mount resolution, target-path resolution, backup subprocess lifecycle,
cancellation) and `src/backend/schema.py` / `src/backend/server.py`
(log sink, status query, manual-trigger mutation, hotplug callback).
External effects (the OS mount table, the filesystem, subprocess
behaviour, wall-clock time) are passed in explicitly as oracle values,
and each operation returns the full record of the effects it performed
(directories created, mount commands issued, subprocess launch attempts,
log lines emitted) so that the theorems can speak about them.
-/

/-! ### Python string primitives

Executable embeddings of the Python string operations the core uses
(`str.lower`, `str.strip`, `" ".join`, `str.format` with named
placeholders, `os.path.expanduser`), written over `List Char` so that
they reduce inside the kernel. -/

/-- Embedding of Python `str.lower` restricted to ASCII, which is all
the core compares (`ID_FS_TYPE` values). -/
def pyLower (s : String) : String := ⟨s.data.map Char.toLower⟩

/-- Embedding of Python `str.strip` with no argument: drop whitespace
from both ends. -/
def pyStrip (s : String) : String :=
  ⟨((s.data.dropWhile Char.isWhitespace).reverse.dropWhile Char.isWhitespace).reverse⟩

/-- Embedding of Python `" ".join(cmd)`. -/
def joinSpace (parts : List String) : String := String.intercalate " " parts

/-- Replace every occurrence of `p` by `r` in `s`, scanning left to
right and not rescanning replaced text. The `fuel` argument (always
instantiated with the input length) makes the recursion structural so
that the function reduces inside the kernel. -/
def repAllAux (p r : List Char) : Nat → List Char → List Char
  | 0, s => s
  | _ + 1, [] => []
  | fuel + 1, c :: cs =>
    if p ≠ [] ∧ p.isPrefixOf (c :: cs) then
      r ++ repAllAux p r fuel ((c :: cs).drop p.length)
    else
      c :: repAllAux p r fuel cs

/-- Replace every occurrence of `pat` in `s` by `rep`. -/
def pyReplace (s pat rep : String) : String :=
  ⟨repAllAux pat.data rep.data s.data.length s.data⟩

/-- Embedding of Python `template.format(key=value, ...)` for the fixed
placeholder environments the core passes: each `\x7bkey\x7d` occurrence
in the template is replaced by the corresponding value. -/
def pyFormat (tpl : String) (env : List (String × String)) : String :=
  env.foldl (fun acc kv => pyReplace acc ("\x7b" ++ kv.1 ++ "\x7d") kv.2) tpl

/-- Embedding of `os.path.expanduser` for the cases the core exercises:
a path that is exactly `"~"` or starts with `"~/"` has the tilde
replaced by the home directory; other paths (including `"~user"` forms,
which would need a password-database lookup) are returned unchanged. -/
def expanduser (home : String) (s : String) : String :=
  match s.data with
  | '~' :: rest =>
    if rest = [] ∨ rest.headD ' ' = '/' then ⟨home.data ++ rest⟩ else s
  | _ => s

example : pyLower "exFAT" = "exfat" := by decide
example : pyStrip "  a b " = "a b" := by decide
example : pyFormat "x/\x7bdate\x7d/\x7bdate\x7d" [("date", "20200101")] =
    "x/20200101/20200101" := by decide
example : expanduser "/root" "~/backups/x" = "/root/backups/x" := by decide

/-! ### Device descriptors and the watcher's match predicate
(`src/backend/monitor.py`) -/

/-- A udev device descriptor, restricted to the attributes and
properties the core reads: `device_node`, `subsystem`, `action` (absent
on enumerated devices, hence `Option`), `device_type`, `sys_number`
(pyudev returns a string or `None`), and the udev properties `ID_BUS`,
`ID_FS_TYPE`, `ID_FS_UUID` (a `d.get(key)` lookup that can miss, hence
`Option`). -/
structure Device where
  device_node : String
  subsystem : String
  action : Option String
  device_type : String
  sys_number : Option String
  idBus : Option String
  idFsType : Option String
  idFsUuid : Option String
deriving Repr, DecidableEq

/-- Embedding of `DeviceMonitor.match_device` (monitor.py lines 17-29):
the conjunction of six checks; `getattr(d, "action", "")` defaults a
missing action to the empty string, `d.get("ID_BUS")` with no default
compares `None` unequal to `"usb"`, and the filesystem type (defaulted
to `""` when absent) is lower-cased before membership in the set of
accepted types. -/
def match_device (d : Device) : Bool :=
  (d.subsystem == "block") &&
  (d.action.getD "" == "add") &&
  (d.device_type == "partition") &&
  (d.idBus == some "usb") &&
  (d.sys_number == some "1") &&
  (let ft := pyLower (d.idFsType.getD "")
   ft == "exfat" || ft == "fat32" || ft == "udf")

/-- A device descriptor satisfying every clause of the matching
predicate, used to exercise the predicate at a concrete input. -/
def qualifyingDevice : Device :=
  { device_node := "/dev/sdb1"
    subsystem := "block"
    action := some "add"
    device_type := "partition"
    sys_number := some "1"
    idBus := some "usb"
    idFsType := some "exFAT"
    idFsUuid := some "1234-5678" }

example : match_device qualifyingDevice = true := by decide
example : match_device { qualifyingDevice with idBus := some "sata" } = false := by
  decide

/-- **C2.** The watcher's match predicate is true iff all six conditions
hold — subsystem `"block"`, action `"add"`, device type `"partition"`,
bus `"usb"`, partition number 1, and filesystem type case-insensitively
in \x7bexfat, fat32, udf\x7d — and changing any single field to a
disqualifying value makes the predicate false. -/
theorem match_device_iff_and_single_field (d : Device) :
    (match_device d = true ↔
      (d.subsystem = "block" ∧ d.action.getD "" = "add" ∧
       d.device_type = "partition" ∧ d.idBus = some "usb" ∧
       d.sys_number = some "1" ∧
       pyLower (d.idFsType.getD "") ∈ (["exfat", "fat32", "udf"] : List String))) ∧
    (∀ s, s ≠ "block" → match_device { d with subsystem := s } = false) ∧
    (∀ a, a.getD "" ≠ "add" → match_device { d with action := a } = false) ∧
    (∀ ty, ty ≠ "partition" → match_device { d with device_type := ty } = false) ∧
    (∀ b, b ≠ some "usb" → match_device { d with idBus := b } = false) ∧
    (∀ n, n ≠ some "1" → match_device { d with sys_number := n } = false) ∧
    (∀ ft, pyLower (ft.getD "") ∉ (["exfat", "fat32", "udf"] : List String) →
      match_device { d with idFsType := ft } = false) := by
  have main : ∀ e : Device, match_device e = true ↔
      (e.subsystem = "block" ∧ e.action.getD "" = "add" ∧
       e.device_type = "partition" ∧ e.idBus = some "usb" ∧
       e.sys_number = some "1" ∧
       pyLower (e.idFsType.getD "") ∈ (["exfat", "fat32", "udf"] : List String)) := by
    intro e
    simp only [match_device, Bool.and_eq_true, beq_iff_eq, Bool.or_eq_true,
      List.mem_cons, List.not_mem_nil, or_false]
    tauto
  refine ⟨main d, ?_, ?_, ?_, ?_, ?_, ?_⟩
  all_goals
    intro x hx
    rw [Bool.eq_false_iff]
    intro hmatch
    have hconj := (main _).mp hmatch
    simp only at hconj
    tauto

/-- Concrete check for C2: the qualifying device matches, and the same
device on a non-USB bus is rejected. -/
theorem match_device_iff_and_single_field_witness :
    match_device qualifyingDevice = true ∧
    match_device { qualifyingDevice with idBus := some "sata" } = false := by
  constructor
  · exact (match_device_iff_and_single_field qualifyingDevice).1.mpr (by decide)
  · exact (match_device_iff_and_single_field qualifyingDevice).2.2.2.2.1
      (some "sata") (by decide)

/-! ### The backup executor (`src/backend/backup.py`, `BackupManager`)

`BackupManager` holds one mutable field, `current_process`
(an `Optional[subprocess.Popen]`). A `Popen` handle is abstracted to
whether its process has exited (`poll() is None` means not exited).
The behaviour of the launched subprocess — whether `Popen` itself
raised, the lines the process wrote to its merged output stream, and
its exit code — is an oracle input `LaunchOutcome`. -/

/-- A subprocess handle: `exited = false` models `poll() is None`
(the process is still running). -/
structure ProcHandle where
  exited : Bool
deriving Repr, DecidableEq

/-- The executor's whole mutable state: `self.current_process`. -/
structure ManagerState where
  current_process : Option ProcHandle
deriving Repr, DecidableEq

/-- Oracle describing what the external subprocess did: `failed d`
models `subprocess.Popen` itself raising (tool missing, etc.) with
message `d`; `launched lines code` models a subprocess that wrote
`lines` to its merged stdout/stderr stream and exited with `code`. -/
inductive LaunchOutcome where
  | failed (detail : String)
  | launched (outputLines : List String) (exitCode : Int)
deriving Repr, DecidableEq

/-- The errors `perform_backup` can raise: the ConcurrencyError of the
spec (`RuntimeError("A backup is already in progress.")`), BackupFailed
(`subprocess.CalledProcessError(returncode, cmd)`, carrying the exit
code and the launched command), and the distinct could-not-start
failure (the exception `Popen` raised, re-raised by `perform_backup`). -/
inductive BackupError where
  | concurrencyError (msg : String)
  | backupFailed (exitCode : Int) (cmd : List String)
  | couldNotStart (detail : String)
deriving Repr, DecidableEq

/-- Rendition of Python `str(e)` for the errors above (the exact CPython
wording of `CalledProcessError` is abbreviated; no theorem depends on
that wording). -/
def errString : BackupError → String
  | .concurrencyError m => m
  | .backupFailed code cmd =>
    "Command " ++ joinSpace cmd ++ " returned non-zero exit status " ++ toString code
  | .couldNotStart d => d

/-- The rsync invocation built at backup.py line 106. -/
def rsyncCmd (source target : String) : List String :=
  ["rsync", "-av", "--info=progress2", source ++ "/", target ++ "/"]

/-- The drain loop (backup.py lines 123-125): each line of the merged
output stream is passed to `logger.debug` as
`"rsync: " ++ line.strip()`. -/
def drainLines (lines : List String) : List String :=
  lines.map (fun l => "rsync: " ++ pyStrip l)

/-- Everything one call to `perform_backup` did: its result (`.ok` or
the raised error), the final `current_process`, the directories it
created, how many times it attempted to launch a subprocess, the lines
it handed to the Python `logging` module, and the lines it appended to
the `schema.logs` list via `add_log` (backup.py never imports or calls
`add_log`, so the latter is empty in every branch). -/
structure BackupRun where
  result : Except BackupError Unit
  finalState : ManagerState
  dirsCreated : List String
  launchAttempts : Nat
  loggerLines : List String
  sinkLines : List String
deriving Repr

/-- The body of `perform_backup` after the concurrency guard
(backup.py lines 103-138): create the target directory if missing,
launch rsync, drain the merged output, classify the exit, and in the
`finally` block clear `current_process`. -/
def performBackupBody (existingDirs : List String) (source target : String)
    (launch : LaunchOutcome) : BackupRun :=
  let dirs := if target ∈ existingDirs then [] else [target]
  let cmd := rsyncCmd source target
  let startLog := "Starting backup: " ++ joinSpace cmd
  match launch with
  | .failed detail =>
    { result := .error (.couldNotStart detail)
      finalState := ⟨none⟩
      dirsCreated := dirs
      launchAttempts := 1
      loggerLines := [startLog, "Backup failed: " ++ detail]
      sinkLines := [] }
  | .launched lines code =>
    if code = 0 then
      { result := .ok ()
        finalState := ⟨none⟩
        dirsCreated := dirs
        launchAttempts := 1
        loggerLines := startLog :: (drainLines lines ++ ["Backup completed successfully."])
        sinkLines := [] }
    else
      { result := .error (.backupFailed code cmd)
        finalState := ⟨none⟩
        dirsCreated := dirs
        launchAttempts := 1
        loggerLines := startLog :: (drainLines lines ++
          ["Backup failed: " ++ errString (.backupFailed code cmd)])
        sinkLines := [] }

/-- Embedding of `BackupManager.perform_backup` (backup.py lines
99-138). The guard at line 100 — `if self.current_process and
self.current_process.poll() is None` — raises before any directory is
created or any subprocess launched; otherwise the body runs. -/
def perform_backup (st : ManagerState) (existingDirs : List String)
    (source target : String) (launch : LaunchOutcome) : BackupRun :=
  match st.current_process with
  | some p =>
    if p.exited then
      performBackupBody existingDirs source target launch
    else
      { result := .error (.concurrencyError "A backup is already in progress.")
        finalState := st
        dirsCreated := []
        launchAttempts := 0
        loggerLines := []
        sinkLines := [] }
  | none => performBackupBody existingDirs source target launch

/-- Dispatch lemma: when no live subprocess is stored, `perform_backup`
runs its body. -/
theorem perform_backup_eq_body (st : ManagerState) (existingDirs : List String)
    (source target : String) (launch : LaunchOutcome)
    (hidle : ∀ p, st.current_process = some p → p.exited = true) :
    perform_backup st existingDirs source target launch =
      performBackupBody existingDirs source target launch := by
  unfold perform_backup
  cases h : st.current_process with
  | none => rfl
  | some p => simp [hidle p h]

/-- **C1.** Calling `perform_backup` while a live (not yet exited)
subprocess is stored raises the ConcurrencyError atomically: the
result is the error, the state is exactly the caller's state (the
process handle untouched), no directory is created, and no subprocess
launch is attempted. -/
theorem perform_backup_concurrency_atomic (st : ManagerState)
    (existingDirs : List String) (source target : String)
    (launch : LaunchOutcome) (p : ProcHandle)
    (hp : st.current_process = some p) (hlive : p.exited = false) :
    (perform_backup st existingDirs source target launch).result =
      .error (.concurrencyError "A backup is already in progress.") ∧
    (perform_backup st existingDirs source target launch).finalState = st ∧
    (perform_backup st existingDirs source target launch).dirsCreated = [] ∧
    (perform_backup st existingDirs source target launch).launchAttempts = 0 := by
  unfold perform_backup
  rw [hp]
  simp [hlive]

/-- Concrete check for C1: with a live handle stored, the call fails
with the ConcurrencyError and changes nothing. -/
theorem perform_backup_concurrency_atomic_witness :
    (perform_backup ⟨some ⟨false⟩⟩ [] "/mnt/sd" "/root/backups/x"
        (.launched ["line"] 0)).result =
      .error (.concurrencyError "A backup is already in progress.") ∧
    (perform_backup ⟨some ⟨false⟩⟩ [] "/mnt/sd" "/root/backups/x"
        (.launched ["line"] 0)).finalState = ⟨some ⟨false⟩⟩ ∧
    (perform_backup ⟨some ⟨false⟩⟩ [] "/mnt/sd" "/root/backups/x"
        (.launched ["line"] 0)).dirsCreated = [] ∧
    (perform_backup ⟨some ⟨false⟩⟩ [] "/mnt/sd" "/root/backups/x"
        (.launched ["line"] 0)).launchAttempts = 0 :=
  perform_backup_concurrency_atomic ⟨some ⟨false⟩⟩ [] "/mnt/sd" "/root/backups/x"
    (.launched ["line"] 0) ⟨false⟩ rfl rfl

/-- **C4.** Exit classification of a run that passes the guard: exit
code 0 ends `.ok` with the success line logged; a nonzero exit raises
BackupFailed carrying the exit code and the launched command; a launch
failure raises the distinct could-not-start error; and the two failure
shapes are distinguishable. In every case the handle is cleared
(`finally`), returning the executor to Idle. -/
theorem perform_backup_exit_classification (st : ManagerState)
    (existingDirs : List String) (source target : String)
    (hidle : ∀ p, st.current_process = some p → p.exited = true) :
    (∀ lines,
      (perform_backup st existingDirs source target (.launched lines 0)).result =
        .ok () ∧
      (perform_backup st existingDirs source target (.launched lines 0)).finalState =
        ⟨none⟩ ∧
      "Backup completed successfully." ∈
        (perform_backup st existingDirs source target (.launched lines 0)).loggerLines) ∧
    (∀ lines code, code ≠ 0 →
      (perform_backup st existingDirs source target (.launched lines code)).result =
        .error (.backupFailed code (rsyncCmd source target)) ∧
      (perform_backup st existingDirs source target
        (.launched lines code)).finalState = ⟨none⟩) ∧
    (∀ detail,
      (perform_backup st existingDirs source target (.failed detail)).result =
        .error (.couldNotStart detail) ∧
      (perform_backup st existingDirs source target (.failed detail)).finalState =
        ⟨none⟩) ∧
    (∀ code cmd detail,
      (BackupError.backupFailed code cmd) ≠ BackupError.couldNotStart detail) := by
  refine ⟨?_, ?_, ?_, ?_⟩
  · intro lines
    rw [perform_backup_eq_body st existingDirs source target _ hidle]
    unfold performBackupBody
    simp
  · intro lines code hcode
    rw [perform_backup_eq_body st existingDirs source target _ hidle]
    unfold performBackupBody
    simp [hcode]
  · intro detail
    rw [perform_backup_eq_body st existingDirs source target _ hidle]
    unfold performBackupBody
    simp
  · intro code cmd detail h
    exact BackupError.noConfusion h

/-- Concrete check for C4: from the Idle state, exit 0 completes, exit
7 raises BackupFailed with code and command, and a missing tool raises
the distinct could-not-start error. -/
theorem perform_backup_exit_classification_witness :
    (perform_backup ⟨none⟩ [] "/mnt/sd" "/root/backups/x"
        (.launched ["sent 100 bytes"] 0)).result = .ok () ∧
    (perform_backup ⟨none⟩ [] "/mnt/sd" "/root/backups/x"
        (.launched [] 7)).result =
      .error (.backupFailed 7 (rsyncCmd "/mnt/sd" "/root/backups/x")) ∧
    (perform_backup ⟨none⟩ [] "/mnt/sd" "/root/backups/x"
        (.failed "rsync: command not found")).result =
      .error (.couldNotStart "rsync: command not found") := by
  have h := perform_backup_exit_classification ⟨none⟩ [] "/mnt/sd" "/root/backups/x"
    (fun p hp => by cases hp)
  exact ⟨(h.1 ["sent 100 bytes"]).1, (h.2.1 [] 7 (by decide)).1,
    (h.2.2.1 "rsync: command not found").1⟩

/-- Helper: every branch of the backup body ends with the handle
cleared (the `finally` at backup.py line 137-138). -/
theorem performBackupBody_finalState (existingDirs : List String)
    (source target : String) (launch : LaunchOutcome) :
    (performBackupBody existingDirs source target launch).finalState = ⟨none⟩ := by
  unfold performBackupBody
  cases launch with
  | failed detail => rfl
  | launched lines code =>
    by_cases hcode : code = 0 <;> simp [hcode]

/-! ### The status query (`src/backend/schema.py`, `Query.current_status`) -/

/-- The GraphQL `BackupStatus` payload (schema.py lines 30-33). -/
structure BackupStatus where
  active : Bool
  message : String
deriving Repr, DecidableEq

/-- Embedding of `Query.current_status` (schema.py lines 51-54):
`active` is `current_process is not None and current_process.poll() is
None`, and the message is `"Backup in progress"` when active, `"Idle"`
otherwise. -/
def current_status (st : ManagerState) : BackupStatus :=
  let active :=
    match st.current_process with
    | some p => !p.exited
    | none => false
  ⟨active, if active then "Backup in progress" else "Idle"⟩

/-- **C7 counterexample.** The drain loop does not forward output lines
verbatim, and it does not write to the log list the status layer reads:
for the concrete stream line `"  sent 100 bytes  "`, the status-layer
sink receives nothing from the run, no sink carries the line verbatim,
and the Python logging facility receives the stripped, prefixed form
`"rsync: sent 100 bytes"` instead. -/
theorem drain_not_verbatim_counterexample :
    (perform_backup ⟨none⟩ [] "/mnt/sd" "/root/backups/x"
        (.launched ["  sent 100 bytes  "] 0)).sinkLines = [] ∧
    "  sent 100 bytes  " ∉
      (perform_backup ⟨none⟩ [] "/mnt/sd" "/root/backups/x"
        (.launched ["  sent 100 bytes  "] 0)).loggerLines ∧
    "rsync: sent 100 bytes" ∈
      (perform_backup ⟨none⟩ [] "/mnt/sd" "/root/backups/x"
        (.launched ["  sent 100 bytes  "] 0)).loggerLines := by
  decide

/-- **C7 (amended).** While a job runs, every line of the merged output
stream is read and forwarded — unconditionally, in arrival order — to
the Python logging facility, each line stripped of surrounding
whitespace and prefixed with `"rsync: "` (not verbatim); nothing from
the stream is appended to the log list the external status layer
reads. -/
theorem drain_forwards_stripped_prefixed (st : ManagerState)
    (existingDirs : List String) (source target : String)
    (lines : List String) (code : Int)
    (hidle : ∀ p, st.current_process = some p → p.exited = true) :
    (perform_backup st existingDirs source target
        (.launched lines code)).loggerLines =
      ("Starting backup: " ++ joinSpace (rsyncCmd source target)) ::
        (lines.map (fun l => "rsync: " ++ pyStrip l) ++
          (if code = 0 then ["Backup completed successfully."]
           else ["Backup failed: " ++
             errString (.backupFailed code (rsyncCmd source target))])) ∧
    (perform_backup st existingDirs source target
        (.launched lines code)).sinkLines = [] := by
  rw [perform_backup_eq_body st existingDirs source target _ hidle]
  unfold performBackupBody drainLines
  by_cases hcode : code = 0 <;> simp [hcode]

/-- Concrete check for the amended C7: a two-line stream from the Idle
state is forwarded in order, stripped and prefixed. -/
theorem drain_forwards_stripped_prefixed_witness :
    (perform_backup ⟨none⟩ [] "/mnt/sd" "/root/backups/x"
        (.launched ["a ", " b"] 0)).loggerLines =
      ("Starting backup: " ++
          joinSpace (rsyncCmd "/mnt/sd" "/root/backups/x")) ::
        (["a ", " b"].map (fun l => "rsync: " ++ pyStrip l) ++
          (if (0 : Int) = 0 then ["Backup completed successfully."]
           else ["Backup failed: " ++
             errString (.backupFailed 0 (rsyncCmd "/mnt/sd" "/root/backups/x"))])) ∧
    (perform_backup ⟨none⟩ [] "/mnt/sd" "/root/backups/x"
        (.launched ["a ", " b"] 0)).sinkLines = [] :=
  drain_forwards_stripped_prefixed ⟨none⟩ [] "/mnt/sd" "/root/backups/x"
    ["a ", " b"] 0 (fun p hp => by cases hp)

/-- **C10.** Every run that passes the guard ends with the stored
process handle cleared (the `finally` block runs on success and on
every raised error alike), returning the executor to Idle with no
retained job history; and the status output reports `active = true` iff
a handle exists whose process has not exited, with message
`"Backup in progress"` when active and `"Idle"` otherwise. -/
theorem terminal_discard_and_status (st : ManagerState)
    (existingDirs : List String) (source target : String)
    (launch : LaunchOutcome)
    (hidle : ∀ p, st.current_process = some p → p.exited = true) :
    (perform_backup st existingDirs source target launch).finalState = ⟨none⟩ ∧
    (∀ s : ManagerState, (current_status s).active = true ↔
      ∃ p, s.current_process = some p ∧ p.exited = false) ∧
    (∀ s : ManagerState, (current_status s).message =
      if (current_status s).active then "Backup in progress" else "Idle") := by
  refine ⟨?_, ?_, ?_⟩
  · rw [perform_backup_eq_body st existingDirs source target _ hidle]
    exact performBackupBody_finalState existingDirs source target launch
  · intro s
    unfold current_status
    cases h : s.current_process with
    | none => simp
    | some p => cases hp : p.exited <;> simp
  · intro s
    unfold current_status
    cases h : s.current_process with
    | none => rfl
    | some p => rfl

/-- Concrete check for C10: a failed run from Idle still clears the
handle, the cleared state reports inactive `"Idle"`, and a live handle
reports active `"Backup in progress"`. -/
theorem terminal_discard_and_status_witness :
    (perform_backup ⟨none⟩ [] "/mnt/sd" "/root/backups/x"
        (.launched [] 23)).finalState = ⟨none⟩ ∧
    ((current_status ⟨some ⟨false⟩⟩).active = true ↔
      ∃ p, (⟨some ⟨false⟩⟩ : ManagerState).current_process = some p ∧
        p.exited = false) ∧
    (current_status ⟨none⟩).message =
      if (current_status ⟨none⟩).active then "Backup in progress" else "Idle" := by
  have h := terminal_discard_and_status ⟨none⟩ [] "/mnt/sd" "/root/backups/x"
    (.launched [] 23) (fun p hp => by cases hp)
  exact ⟨h.1, h.2.1 ⟨some ⟨false⟩⟩, h.2.2 ⟨none⟩⟩

/-! ### The mount resolver (`src/backend/backup.py`,
`BackupManager.mount_device`)

The live mount table (`/proc/mounts`) is modelled as a list of
(device node, mount path) pairs in file order; a successful `mount`
command appends an entry for the device. The `mount` subprocess's
success is an oracle input. -/

/-- The configuration mapping the core consumes, with its two
templates already looked up (config.py's `load_config` result as read
via `config.get(key, default)`). -/
structure Config where
  mount_point_template : String
  target_path_template : String
deriving Repr, DecidableEq

/-- Scan of `/proc/mounts` (backup.py lines 27-32): the first line
whose first field equals the device node yields its second field. -/
def lookupMountTable : List (String × String) → String → Option String
  | [], _ => none
  | entry :: rest, node =>
    if entry.1 = node then some entry.2 else lookupMountTable rest node

/-- Everything one call to `mount_device` did: the returned mount point
(or the raised mount failure, carrying the underlying detail), the
resulting mount table, the number of `mount` commands issued, and the
directories created. -/
structure MountRun where
  result : Except String String
  table : List (String × String)
  mountCmds : Nat
  dirsCreated : List String
deriving Repr

/-- Embedding of `BackupManager.mount_device` (backup.py lines 16-48):
return the existing path when the device node is already in the mount
table; otherwise substitute the filesystem UUID (default `"unknown"`)
into `mount_point_template`, create the directory if absent, and issue
one `mount` command, whose success (`mountOk`) adds the entry to the
table and whose failure raises. -/
def mount_device (d : Device) (table : List (String × String)) (cfg : Config)
    (existingDirs : List String) (mountOk : Bool) : MountRun :=
  match lookupMountTable table d.device_node with
  | some path =>
    { result := .ok path
      table := table
      mountCmds := 0
      dirsCreated := [] }
  | none =>
    let uuid := d.idFsUuid.getD "unknown"
    let mount_point := pyFormat cfg.mount_point_template [("uuid", uuid)]
    let dirs := if mount_point ∈ existingDirs then [] else [mount_point]
    if mountOk then
      { result := .ok mount_point
        table := table ++ [(d.device_node, mount_point)]
        mountCmds := 1
        dirsCreated := dirs }
    else
      { result := .error ("Failed to mount device: Command mount " ++
          d.device_node ++ " " ++ mount_point ++ " returned non-zero exit status")
        table := table
        mountCmds := 1
        dirsCreated := dirs }

/-- Helper: the branch of `mount_device` for a device already in the
mount table. -/
theorem mount_device_found (d : Device) (table : List (String × String))
    (cfg : Config) (existingDirs : List String) (ok : Bool) (p : String)
    (h : lookupMountTable table d.device_node = some p) :
    mount_device d table cfg existingDirs ok =
      { result := .ok p, table := table, mountCmds := 0, dirsCreated := [] } := by
  unfold mount_device
  rw [h]

/-- Helper: the branch of `mount_device` for a device not yet in the
mount table, with the `mount` command succeeding. -/
theorem mount_device_fresh (d : Device) (table : List (String × String))
    (cfg : Config) (existingDirs : List String)
    (h : lookupMountTable table d.device_node = none) :
    mount_device d table cfg existingDirs true =
      { result := .ok (pyFormat cfg.mount_point_template
          [("uuid", d.idFsUuid.getD "unknown")])
        table := table ++ [(d.device_node, pyFormat cfg.mount_point_template
          [("uuid", d.idFsUuid.getD "unknown")])]
        mountCmds := 1
        dirsCreated := if pyFormat cfg.mount_point_template
            [("uuid", d.idFsUuid.getD "unknown")] ∈ existingDirs then []
          else [pyFormat cfg.mount_point_template
            [("uuid", d.idFsUuid.getD "unknown")]] } := by
  unfold mount_device
  rw [h]
  rfl

/-- Helper: appending an entry for a node that is not yet in the table
makes the lookup find exactly that entry. -/
theorem lookupMountTable_append_self (table : List (String × String))
    (node path : String) (h : lookupMountTable table node = none) :
    lookupMountTable (table ++ [(node, path)]) node = some path := by
  induction table with
  | nil => simp [lookupMountTable]
  | cons entry rest ih =>
    simp only [lookupMountTable, List.cons_append] at h ⊢
    by_cases he : entry.1 = node
    · rw [if_pos he] at h
      simp at h
    · rw [if_neg he] at h ⊢
      exact ih h

/-- **C6.** Mounting is idempotent: if the device node is already in
the live mount table the existing path is returned with no `mount`
command issued; and calling `mount_device` twice without an
intervening unmount issues at most one `mount` command in total, the
second call issuing none and returning the identical path. -/
theorem mount_device_idempotent (d : Device) (table : List (String × String))
    (cfg : Config) (existingDirs1 existingDirs2 : List String) (ok2 : Bool) :
    (∀ p, lookupMountTable table d.device_node = some p →
      (mount_device d table cfg existingDirs1 true).result = .ok p ∧
      (mount_device d table cfg existingDirs1 true).mountCmds = 0) ∧
    ((mount_device d
        (mount_device d table cfg existingDirs1 true).table
        cfg existingDirs2 ok2).result =
      (mount_device d table cfg existingDirs1 true).result ∧
    (mount_device d
        (mount_device d table cfg existingDirs1 true).table
        cfg existingDirs2 ok2).mountCmds = 0 ∧
    (mount_device d table cfg existingDirs1 true).mountCmds +
      (mount_device d
        (mount_device d table cfg existingDirs1 true).table
        cfg existingDirs2 ok2).mountCmds ≤ 1) := by
  constructor
  · intro p hp
    rw [mount_device_found d table cfg existingDirs1 true p hp]
    exact ⟨rfl, rfl⟩
  · cases h : lookupMountTable table d.device_node with
    | some p =>
      have h1 := mount_device_found d table cfg existingDirs1 true p h
      have h2 := mount_device_found d table cfg existingDirs2 ok2 p h
      simp [h1, h2]
    | none =>
      have h1 := mount_device_fresh d table cfg existingDirs1 h
      have hap := lookupMountTable_append_self table d.device_node
        (pyFormat cfg.mount_point_template [("uuid", d.idFsUuid.getD "unknown")]) h
      have h2 := mount_device_found d
        (table ++ [(d.device_node, pyFormat cfg.mount_point_template
          [("uuid", d.idFsUuid.getD "unknown")])])
        cfg existingDirs2 ok2
        (pyFormat cfg.mount_point_template [("uuid", d.idFsUuid.getD "unknown")]) hap
      simp [h1, h2]

/-- Concrete check for C6: a device already mounted at `/media/x` is
returned as-is with no mount command; a fresh device is mounted once
and a second call (even with a failing mount oracle, which is never
consulted) returns the same path with no further command. -/
theorem mount_device_idempotent_witness :
    ((mount_device qualifyingDevice [("/dev/sdb1", "/media/x")]
        ⟨"/media/sd-backup-\x7buuid\x7d", "~/backups/\x7bdate\x7d"⟩ [] true).result =
      .ok "/media/x" ∧
    (mount_device qualifyingDevice [("/dev/sdb1", "/media/x")]
        ⟨"/media/sd-backup-\x7buuid\x7d", "~/backups/\x7bdate\x7d"⟩ [] true).mountCmds = 0) ∧
    ((mount_device qualifyingDevice
        (mount_device qualifyingDevice []
          ⟨"/media/sd-backup-\x7buuid\x7d", "~/backups/\x7bdate\x7d"⟩ [] true).table
        ⟨"/media/sd-backup-\x7buuid\x7d", "~/backups/\x7bdate\x7d"⟩ [] false).result =
      (mount_device qualifyingDevice []
        ⟨"/media/sd-backup-\x7buuid\x7d", "~/backups/\x7bdate\x7d"⟩ [] true).result ∧
    (mount_device qualifyingDevice
        (mount_device qualifyingDevice []
          ⟨"/media/sd-backup-\x7buuid\x7d", "~/backups/\x7bdate\x7d"⟩ [] true).table
        ⟨"/media/sd-backup-\x7buuid\x7d", "~/backups/\x7bdate\x7d"⟩ [] false).mountCmds = 0) := by
  have h1 := mount_device_idempotent qualifyingDevice [("/dev/sdb1", "/media/x")]
    ⟨"/media/sd-backup-\x7buuid\x7d", "~/backups/\x7bdate\x7d"⟩ [] [] true
  have h2 := mount_device_idempotent qualifyingDevice []
    ⟨"/media/sd-backup-\x7buuid\x7d", "~/backups/\x7bdate\x7d"⟩ [] [] false
  exact ⟨h1.1 "/media/x" (by decide), h2.2.1, h2.2.2.1⟩

/-! ### The target-path resolver (`src/backend/backup.py`,
`BackupManager.resolve_target_path`)

The `os.walk` over the source directory is abstracted to the list of
regular files it visits, each carrying `some mtime` when
`os.path.getmtime` succeeds and `none` when it raises `OSError` (which
the code catches with `continue`). Timestamps are Unix seconds as
integers; `datetime.fromtimestamp`/`strftime` and `datetime.now` are an
oracle (`fmtDate`, `fmtHour`, `fmtMinute`, `now`), since the civil
calendar in the host's local timezone is outside the embedding. -/

/-- One regular file met by the walk: its path and its modification
timestamp, `none` when reading the timestamp raised `OSError`. -/
structure FileEntry where
  path : String
  mtime : Option Int
deriving Repr, DecidableEq

/-- One iteration of the scan loop (backup.py lines 62-69): an
unreadable timestamp leaves the accumulator unchanged; a readable one
replaces it when smaller or when no timestamp was seen yet. -/
def mtimeStep (acc : Option Int) (f : FileEntry) : Option Int :=
  match f.mtime with
  | none => acc
  | some m =>
    match acc with
    | none => some m
    | some e => if m < e then some m else some e

/-- The scan of backup.py lines 59-74: fold `mtimeStep` over every file
the walk visits, starting from `earliest_mtime = None`. -/
def earliestMtime (files : List FileEntry) : Option Int :=
  files.foldl mtimeStep none

/-- The timestamp the resolver formats (backup.py lines 78-81): the
Python test is `if earliest_mtime:`, which is truthiness — both `None`
and the float `0.0` (the Unix epoch) select `datetime.now()`. -/
def chosenTimestamp (files : List FileEntry) (now : Int) : Int :=
  match earliestMtime files with
  | some m => if m = 0 then now else m
  | none => now

/-- The formatting/clock oracle standing for `datetime`: `fmtDate t` is
`fromtimestamp(t).strftime("%Y%m%d")`, similarly the hour and minute
fields, and `now` is the timestamp of `datetime.now()`. -/
structure TimeOracle where
  fmtDate : Int → String
  fmtHour : Int → String
  fmtMinute : Int → String
  now : Int

/-- `uuid[:4] if len(uuid) >= 4 else uuid` (backup.py line 56). -/
def uuid_short_of (uuid : String) : String :=
  if 4 ≤ uuid.length then ⟨uuid.data.take 4⟩ else uuid

/-- Embedding of `BackupManager.resolve_target_path` (backup.py lines
50-97): choose the timestamp, substitute the five placeholders into
`target_path_template`, and expand a leading tilde. -/
def resolve_target_path (d : Device) (files : List FileEntry) (cfg : Config)
    (oracle : TimeOracle) (home : String) : String :=
  let uuid := d.idFsUuid.getD "unknown"
  let t := chosenTimestamp files oracle.now
  expanduser home (pyFormat cfg.target_path_template
    [("date", oracle.fmtDate t), ("hour", oracle.fmtHour t),
     ("minute", oracle.fmtMinute t), ("uuid", uuid),
     ("uuid_short", uuid_short_of uuid)])

/-- Helper: folding `mtimeStep` from a seen timestamp computes the
minimum of the seed and the readable timestamps. -/
theorem foldl_mtimeStep_some (files : List FileEntry) :
    ∀ e : Int, files.foldl mtimeStep (some e) =
      some ((files.filterMap FileEntry.mtime).foldl min e) := by
  induction files with
  | nil => intro e; rfl
  | cons f fs ih =>
    intro e
    cases hf : f.mtime with
    | none =>
      simp only [List.foldl_cons, List.filterMap_cons, hf, mtimeStep]
      exact ih e
    | some m =>
      have hstep : mtimeStep (some e) f = some (min e m) := by
        simp only [mtimeStep, hf]
        by_cases hlt : m < e
        · rw [if_pos hlt, min_eq_right (le_of_lt hlt)]
        · rw [if_neg hlt, min_eq_left (by omega)]
      simp only [List.foldl_cons, List.filterMap_cons, hf, hstep]
      exact ih (min e m)

/-- Helper: the scan result equals the minimum of the readable
timestamps (as a fold), `none` when there are none. -/
theorem earliestMtime_eq_min_fold (files : List FileEntry) :
    earliestMtime files =
      match files.filterMap FileEntry.mtime with
      | [] => none
      | x :: xs => some (xs.foldl min x) := by
  induction files with
  | nil => rfl
  | cons f fs ih =>
    cases hf : f.mtime with
    | none =>
      unfold earliestMtime at ih ⊢
      simp only [List.foldl_cons, List.filterMap_cons, hf, mtimeStep]
      exact ih
    | some m =>
      unfold earliestMtime
      simp only [List.foldl_cons, List.filterMap_cons, hf, mtimeStep]
      exact foldl_mtimeStep_some fs m

/-- Helper: a min-fold stays below its seed. -/
theorem foldl_min_le_seed (xs : List Int) : ∀ x : Int, xs.foldl min x ≤ x := by
  induction xs with
  | nil => intro x; exact le_refl x
  | cons y ys ih =>
    intro x
    calc ys.foldl min (min x y) ≤ min x y := ih (min x y)
    _ ≤ x := min_le_left x y

/-- Helper: a min-fold is below every list element. -/
theorem foldl_min_le_mem (xs : List Int) :
    ∀ (x z : Int), z ∈ xs → xs.foldl min x ≤ z := by
  induction xs with
  | nil => intro x z hz; cases hz
  | cons y ys ih =>
    intro x z hz
    rcases List.mem_cons.mp hz with hzy | hzys
    · subst hzy
      calc ys.foldl min (min x z) ≤ min x z := foldl_min_le_seed ys (min x z)
      _ ≤ z := min_le_right x z
    · exact ih (min x y) z hzys

/-- Helper: a min-fold returns its seed or a list element. -/
theorem foldl_min_mem (xs : List Int) :
    ∀ x : Int, xs.foldl min x = x ∨ xs.foldl min x ∈ xs := by
  induction xs with
  | nil => intro x; exact Or.inl rfl
  | cons y ys ih =>
    intro x
    simp only [List.foldl_cons]
    rcases ih (min x y) with h | h
    · rcases min_choice x y with hc | hc
      · rw [h, hc]; exact Or.inl rfl
      · rw [h, hc]; exact Or.inr (List.mem_cons_self y ys)
    · exact Or.inr (List.mem_cons_of_mem y h)

/-- Three files whose minimum readable modification time is exactly the
Unix epoch (timestamp 0). -/
def epochFiles : List FileEntry :=
  [⟨"/mnt/sd/a.jpg", some 0⟩, ⟨"/mnt/sd/b.jpg", some 100⟩,
   ⟨"/mnt/sd/c.jpg", some 200⟩]

/-- A concrete clock/formatting oracle: the current time is 999, the
epoch formats to `"19700101"` and the current time to `"20251012"`. -/
def sampleOracle : TimeOracle :=
  { fmtDate := fun t => if t = 0 then "19700101" else
      if t = 999 then "20251012" else "D"
    fmtHour := fun _ => "00"
    fmtMinute := fun _ => "00"
    now := 999 }

/-- **C3 counterexample.** The resolver does not use every readable
minimum: with readable timestamps 0 < 100 < 200 the minimum 0 (the
epoch) is read, yet the Python truthiness test `if earliest_mtime:`
treats it as absent and the produced date is the current time's
`"20251012"`, not the epoch's `"19700101"` derived from t1 = 0. -/
theorem resolve_epoch_fallback_counterexample :
    earliestMtime epochFiles = some 0 ∧
    resolve_target_path qualifyingDevice epochFiles
        ⟨"/media/sd-backup-\x7buuid\x7d", "\x7bdate\x7d"⟩ sampleOracle "/root" =
      "20251012" ∧
    sampleOracle.fmtDate 0 = "19700101" ∧
    ("20251012" : String) ≠ "19700101" := by
  refine ⟨rfl, by decide, rfl, by decide⟩

/-- **C3 (amended).** The resolver folds the walk into the minimum of
the readable timestamps, skipping unreadable ones (the scan result is
`some m` iff `m` is a readable timestamp below all others, `none` iff
none was readable); it formats that minimum into the template whenever
the minimum is nonzero, and falls back to the current wall-clock time
iff no timestamp was read at all or the minimum is exactly 0 (the Unix
epoch, which the code's truthiness test conflates with absence). -/
theorem resolve_target_path_min_mtime (d : Device) (files : List FileEntry)
    (cfg : Config) (oracle : TimeOracle) (home : String) :
    (∀ m : Int, earliestMtime files = some m ↔
      (m ∈ files.filterMap FileEntry.mtime ∧
       ∀ x ∈ files.filterMap FileEntry.mtime, m ≤ x)) ∧
    (earliestMtime files = none ↔ files.filterMap FileEntry.mtime = []) ∧
    (∀ m : Int, earliestMtime files = some m → m ≠ 0 →
      resolve_target_path d files cfg oracle home =
        expanduser home (pyFormat cfg.target_path_template
          [("date", oracle.fmtDate m), ("hour", oracle.fmtHour m),
           ("minute", oracle.fmtMinute m),
           ("uuid", d.idFsUuid.getD "unknown"),
           ("uuid_short", uuid_short_of (d.idFsUuid.getD "unknown"))])) ∧
    ((earliestMtime files = none ∨ earliestMtime files = some 0) →
      resolve_target_path d files cfg oracle home =
        expanduser home (pyFormat cfg.target_path_template
          [("date", oracle.fmtDate oracle.now), ("hour", oracle.fmtHour oracle.now),
           ("minute", oracle.fmtMinute oracle.now),
           ("uuid", d.idFsUuid.getD "unknown"),
           ("uuid_short", uuid_short_of (d.idFsUuid.getD "unknown"))])) := by
  refine ⟨?_, ?_, ?_, ?_⟩
  · intro m
    rw [earliestMtime_eq_min_fold]
    cases hl : files.filterMap FileEntry.mtime with
    | nil => simp
    | cons x xs =>
      simp only [Option.some.injEq]
      constructor
      · intro hm
        subst hm
        refine ⟨?_, ?_⟩
        · rcases foldl_min_mem xs x with h | h
          · rw [h]; exact List.mem_cons_self x xs
          · exact List.mem_cons_of_mem x h
        · intro z hz
          rcases List.mem_cons.mp hz with hzx | hzxs
          · subst hzx; exact foldl_min_le_seed xs z
          · exact foldl_min_le_mem xs x z hzxs
      · rintro ⟨hmem, hbound⟩
        have h1 : xs.foldl min x ≤ m := by
          rcases List.mem_cons.mp hmem with hmx | hmxs
          · subst hmx; exact foldl_min_le_seed xs m
          · exact foldl_min_le_mem xs x m hmxs
        have h2 : m ≤ xs.foldl min x := by
          rcases foldl_min_mem xs x with h | h
          · rw [h]; exact hbound x (List.mem_cons_self x xs)
          · exact hbound _ (List.mem_cons_of_mem x h)
        exact le_antisymm h1 h2
  · rw [earliestMtime_eq_min_fold]
    cases hl : files.filterMap FileEntry.mtime with
    | nil => simp
    | cons x xs => simp
  · intro m hm h0
    have hc : chosenTimestamp files oracle.now = m := by
      simp only [chosenTimestamp, hm]
      rw [if_neg h0]
    simp only [resolve_target_path]
    rw [hc]
  · intro h
    have hc : chosenTimestamp files oracle.now = oracle.now := by
      rcases h with h | h <;> simp [chosenTimestamp, h]
    simp only [resolve_target_path]
    rw [hc]

/-- Concrete check for the amended C3: with readable timestamps 5 < 9
the resolver formats timestamp 5, and with no readable timestamp it
formats the current time. -/
theorem resolve_target_path_min_mtime_witness :
    resolve_target_path qualifyingDevice
        [⟨"/mnt/sd/a", some 5⟩, ⟨"/mnt/sd/b", some 9⟩]
        ⟨"/media/sd-backup-\x7buuid\x7d", "\x7bdate\x7d"⟩ sampleOracle "/root" =
      expanduser "/root" (pyFormat "\x7bdate\x7d"
        [("date", sampleOracle.fmtDate 5), ("hour", sampleOracle.fmtHour 5),
         ("minute", sampleOracle.fmtMinute 5),
         ("uuid", "1234-5678"), ("uuid_short", uuid_short_of "1234-5678")]) ∧
    resolve_target_path qualifyingDevice [⟨"/mnt/sd/locked", none⟩]
        ⟨"/media/sd-backup-\x7buuid\x7d", "\x7bdate\x7d"⟩ sampleOracle "/root" =
      expanduser "/root" (pyFormat "\x7bdate\x7d"
        [("date", sampleOracle.fmtDate sampleOracle.now),
         ("hour", sampleOracle.fmtHour sampleOracle.now),
         ("minute", sampleOracle.fmtMinute sampleOracle.now),
         ("uuid", "1234-5678"), ("uuid_short", uuid_short_of "1234-5678")]) := by
  have h1 := resolve_target_path_min_mtime qualifyingDevice
    [⟨"/mnt/sd/a", some 5⟩, ⟨"/mnt/sd/b", some 9⟩]
    ⟨"/media/sd-backup-\x7buuid\x7d", "\x7bdate\x7d"⟩ sampleOracle "/root"
  have h2 := resolve_target_path_min_mtime qualifyingDevice
    [⟨"/mnt/sd/locked", none⟩]
    ⟨"/media/sd-backup-\x7buuid\x7d", "\x7bdate\x7d"⟩ sampleOracle "/root"
  exact ⟨h1.2.2.1 5 (by decide) (by decide), h2.2.2.2 (Or.inl (by decide))⟩

/-! ### Cancellation (`src/backend/backup.py`,
`BackupManager.cancel_backup`)

The subprocess is abstracted to whether it has already exited and how
it reacts to SIGTERM: `termDelay = some t` means it exits `t` seconds
after `terminate()`, `none` means it ignores SIGTERM. `wait(timeout=5)`
returns once the process exits, or raises `TimeoutExpired` after 5
seconds; `kill()` (SIGKILL) ends the process immediately. `waitElapsed`
records how long the call spent blocked in `wait`. -/

/-- The subprocess as seen by `cancel_backup`. -/
structure CancelProc where
  exited : Bool
  termDelay : Option Nat
deriving Repr, DecidableEq

/-- Whether the call actually cancelled a running job or was the
Idle-path no-op (`"No backup to cancel."`). -/
inductive CancelOutcome where
  | cancelled
  | noop
deriving Repr, DecidableEq

/-- Everything one call to `cancel_backup` did. -/
structure CancelRun where
  outcome : CancelOutcome
  aliveAfter : Bool
  waitElapsed : Nat
  forceKilled : Bool
  loggerLines : List String
deriving Repr, DecidableEq

/-- Embedding of `BackupManager.cancel_backup` (backup.py lines
140-150): a no-op unless a live process is stored; otherwise
`terminate()`, then `wait(timeout=5)`, then `kill()` on
`TimeoutExpired`. Note the handle itself is not cleared here — the
concurrently blocked `perform_backup` call observes the death, raises,
and its `finally` clears it. -/
def cancel_backup (cur : Option CancelProc) : CancelRun :=
  match cur with
  | some p =>
    if p.exited then
      { outcome := .noop, aliveAfter := false, waitElapsed := 0,
        forceKilled := false, loggerLines := ["No backup to cancel."] }
    else
      match p.termDelay with
      | some t =>
        if t ≤ 5 then
          { outcome := .cancelled, aliveAfter := false, waitElapsed := t,
            forceKilled := false,
            loggerLines := ["Cancelling backup...", "Backup cancelled."] }
        else
          { outcome := .cancelled, aliveAfter := false, waitElapsed := 5,
            forceKilled := true,
            loggerLines := ["Cancelling backup...", "Backup cancelled."] }
      | none =>
        { outcome := .cancelled, aliveAfter := false, waitElapsed := 5,
          forceKilled := true,
          loggerLines := ["Cancelling backup...", "Backup cancelled."] }
  | none =>
    { outcome := .noop, aliveAfter := false, waitElapsed := 0,
      forceKilled := false, loggerLines := ["No backup to cancel."] }

/-- **C8.** `cancel_backup` is a no-op when no live job exists; on a
live job it cancels: afterwards the process is not alive, the time
spent waiting is bounded by the 5-second grace period, and the process
is force-killed exactly when it does not exit within the grace period
on its own. -/
theorem cancel_backup_spec (p : CancelProc) :
    (p.exited = false →
      (cancel_backup (some p)).outcome = .cancelled ∧
      (cancel_backup (some p)).aliveAfter = false ∧
      (cancel_backup (some p)).waitElapsed ≤ 5 ∧
      ((cancel_backup (some p)).forceKilled = true ↔
        ¬ ∃ t, p.termDelay = some t ∧ t ≤ 5)) ∧
    (cancel_backup none).outcome = .noop ∧
    (p.exited = true → (cancel_backup (some p)).outcome = .noop) := by
  refine ⟨?_, rfl, ?_⟩
  · intro hlive
    cases hd : p.termDelay with
    | some t =>
      by_cases ht : t ≤ 5 <;> simp [cancel_backup, hlive, hd, ht]
    | none => simp [cancel_backup, hlive, hd]
  · intro hexited
    simp only [cancel_backup, hexited, if_true]

/-- Concrete check for C8: a live process ignoring SIGTERM is
force-killed within the grace period; a live process exiting after 2
seconds is not; with no job the call is a no-op. -/
theorem cancel_backup_spec_witness :
    (cancel_backup (some ⟨false, none⟩)).outcome = .cancelled ∧
    (cancel_backup (some ⟨false, none⟩)).aliveAfter = false ∧
    (cancel_backup (some ⟨false, none⟩)).waitElapsed ≤ 5 ∧
    (cancel_backup (some ⟨false, some 2⟩)).forceKilled = false ∧
    (cancel_backup none).outcome = .noop := by
  have h1 := cancel_backup_spec ⟨false, none⟩
  have h2 := (cancel_backup_spec ⟨false, some 2⟩).1 rfl
  have hlive := h1.1 rfl
  refine ⟨hlive.1, hlive.2.1, hlive.2.2.1, ?_, h1.2.1⟩
  have := h2.2.2.2
  by_cases hf : (cancel_backup (some ⟨false, some 2⟩)).forceKilled = true
  · exfalso
    exact (this.mp hf) ⟨2, rfl, by omega⟩
  · simpa using hf

/-! ### The concurrency guard as written (`src/backend/backup.py`,
lines 99-115): a check-then-act interleaving model for C5

Each call to `perform_backup` performs two separate steps with no lock
held: CHECK (read `self.current_process`; raise if it holds a live
process) and LAUNCH (run `Popen` and assign `self.current_process`).
Two concurrent calls, thread A and thread B, interleave these steps in
schedule order. Every subprocess in the window under study is
long-running (`poll()` returns `None` throughout), which is exactly the
manual-trigger-races-automatic-backup scenario of the spec. -/

/-- One caller of `perform_backup`: `phase` 0 is before the check,
1 is between the check and the launch, 2 is finished; `raised` records
that the check raised the ConcurrencyError; `launched` records the id
of the subprocess this call launched and assigned. -/
structure StartThread where
  phase : Nat
  raised : Bool
  launched : Option Nat
deriving Repr, DecidableEq

/-- The shared cell `self.current_process` plus the two callers. -/
structure RaceState where
  cell : Option Nat
  thA : StartThread
  thB : StartThread
deriving Repr, DecidableEq

/-- Advance one caller by one step against the shared cell: the CHECK
step raises iff the cell holds a (live) process, the LAUNCH step
launches subprocess `freshId` and overwrites the cell with it. -/
def stepThread (cell : Option Nat) (th : StartThread) (freshId : Nat) :
    Option Nat × StartThread :=
  match th.phase with
  | 0 =>
    match cell with
    | some _ => (cell, { th with phase := 2, raised := true })
    | none => (cell, { th with phase := 1 })
  | 1 => (some freshId, { th with phase := 2, launched := some freshId })
  | _ => (cell, th)

/-- Run one scheduled step: `true` advances thread A (its subprocess id
is 1), `false` advances thread B (id 2). -/
def stepRace (s : RaceState) (which : Bool) : RaceState :=
  if which then
    let next := stepThread s.cell s.thA 1
    { s with cell := next.1, thA := next.2 }
  else
    let next := stepThread s.cell s.thB 2
    { s with cell := next.1, thB := next.2 }

/-- Run a whole schedule from the initial state (cell empty, both
callers before their check). -/
def runRace (sched : List Bool) : RaceState :=
  sched.foldl stepRace ⟨none, ⟨0, false, none⟩, ⟨0, false, none⟩⟩

/-- How many of the two callers launched a subprocess; since every
launched subprocess in this window is still running, this is the number
of simultaneously Running jobs. -/
def launchedCount (s : RaceState) : Nat :=
  (if s.thA.launched.isSome then 1 else 0) +
  (if s.thB.launched.isSome then 1 else 0)

/-- **C5 counterexample.** The check and the transition to Running are
not one atomic operation: under the interleaving A-check, B-check,
A-launch, B-launch both callers pass the check, neither raises, and
both launch — two jobs are Running at the same time, which the claimed
atomic guard would make impossible. -/
theorem check_then_act_race_counterexample :
    launchedCount (runRace [true, false, true, false]) = 2 ∧
    (runRace [true, false, true, false]).thA.raised = false ∧
    (runRace [true, false, true, false]).thB.raised = false ∧
    (runRace [true, false, true, false]).thA.launched = some 1 ∧
    (runRace [true, false, true, false]).thB.launched = some 2 := by
  decide

/-- **C5 (amended).** The guard is a plain check-then-act sequence: when
the two calls are serialized (each call's check and launch adjacent in
the schedule), the first caller launches and the second raises the
ConcurrencyError, so at most one job runs; but the interleaved schedule
makes both callers launch, so the check-and-transition is not atomic
and the single-Running-job invariant can be violated by a race. -/
theorem check_then_act_serialized_vs_interleaved :
    (launchedCount (runRace [true, true, false, false]) = 1 ∧
      (runRace [true, true, false, false]).thA.launched = some 1 ∧
      (runRace [true, true, false, false]).thB.raised = true) ∧
    (launchedCount (runRace [false, false, true, true]) = 1 ∧
      (runRace [false, false, true, true]).thB.launched = some 2 ∧
      (runRace [false, false, true, true]).thA.raised = true) ∧
    launchedCount (runRace [true, false, true, false]) = 2 := by
  decide

/-! ### The log sink, the manual trigger and the hotplug callback
(`src/backend/schema.py`, `src/backend/server.py`)

`schema.logs` is the append-only list the external status layer reads;
`add_log` appends one line. `Mutation.start_manual_backup` returns
`"Backup started"` immediately and dispatches a thread whose body calls
`perform_backup` inside `try/except`, turning any exception into an
`add_log` line; the model runs that body to completion and reports the
final state and sink. `server.device_callback` sequences
mount → resolve → backup inside one `try/except` that likewise turns
any exception into a log line. -/

/-- Embedding of `add_log` (schema.py lines 15-16). -/
def add_log (logs : List String) (message : String) : List String :=
  logs ++ [message]

/-- What one call of the mutation produced: the string handed back to
the external caller, the executor state once the dispatched thread
finished, and the resulting log list. -/
structure MutationRun where
  returned : String
  finalState : ManagerState
  sink : List String
deriving Repr

/-- Embedding of `Mutation.start_manual_backup` (schema.py lines
58-79): the mutation's own return value is `"Backup started"`; the
thread body logs the start line, runs `perform_backup`, and catches any
exception, logging `"Backup failed: ..."` instead of re-raising. -/
def start_manual_backup (st : ManagerState) (existingDirs : List String)
    (logs : List String) (source target : String) (launch : LaunchOutcome) :
    MutationRun :=
  let logs1 := add_log logs ("Starting backup from " ++ source ++ " to " ++ target)
  let run := perform_backup st existingDirs source target launch
  let logs2 :=
    match run.result with
    | .ok _ => add_log logs1 "Backup finished successfully"
    | .error e => add_log logs1 ("Backup failed: " ++ errString e)
  { returned := "Backup started", finalState := run.finalState, sink := logs2 }

/-- What the hotplug callback produced: the executor state and the log
list; the callback itself returns nothing and raises nothing. -/
structure CallbackRun where
  finalState : ManagerState
  sink : List String
deriving Repr

/-- Embedding of `server.device_callback` (server.py lines 14-34):
mount, resolve, backup, each step logged, with one `try/except` that
logs `"Automatic backup failed: ..."` and swallows any exception. -/
def device_callback (d : Device) (table : List (String × String)) (cfg : Config)
    (existingDirs : List String) (mountOk : Bool) (files : List FileEntry)
    (oracle : TimeOracle) (home : String) (st : ManagerState)
    (launch : LaunchOutcome) (logs : List String) : CallbackRun :=
  let logs0 := add_log logs ("Device detected: " ++ d.device_node)
  let mrun := mount_device d table cfg existingDirs mountOk
  match mrun.result with
  | .error e =>
    { finalState := st, sink := add_log logs0 ("Automatic backup failed: " ++ e) }
  | .ok mount_point =>
    let logs1 := add_log logs0 ("Mounted at " ++ mount_point)
    let target := resolve_target_path d files cfg oracle home
    let logs2 := add_log logs1 ("Target path resolved: " ++ target)
    let logs3 := add_log logs2 ("Starting automatic backup to " ++ target)
    let brun := perform_backup st existingDirs mount_point target launch
    match brun.result with
    | .ok _ =>
      { finalState := brun.finalState
        sink := add_log logs3 "Automatic backup completed" }
    | .error e =>
      { finalState := brun.finalState
        sink := add_log logs3 ("Automatic backup failed: " ++ errString e) }

/-- **C9 counterexample.** A backup failure on the manual path does not
propagate to the external caller: with a failing launch the mutation
hands back exactly the same `"Backup started"` value as with a
succeeding one, and the failure surfaces only as a `"Backup failed:"`
line in the log list. -/
theorem manual_failure_not_propagated_counterexample :
    (start_manual_backup ⟨none⟩ [] [] "/src" "/dst"
        (.failed "rsync missing")).returned = "Backup started" ∧
    (start_manual_backup ⟨none⟩ [] [] "/src" "/dst"
        (.failed "rsync missing")).returned =
      (start_manual_backup ⟨none⟩ [] [] "/src" "/dst"
        (.launched [] 0)).returned ∧
    (start_manual_backup ⟨none⟩ [] [] "/src" "/dst"
        (.failed "rsync missing")).sink =
      ["Starting backup from /src to /dst", "Backup failed: rsync missing"] ∧
    (start_manual_backup ⟨none⟩ [] [] "/src" "/dst"
        (.launched [] 23)).returned = "Backup started" := by
  refine ⟨rfl, rfl, rfl, rfl⟩

/-- **C9 (amended).** A BackupFailed error is absorbed on both paths:
the manual trigger's dispatch wrapper catches it and appends
`"Backup failed: ..."` to the log sink while the mutation's return
value to the external caller is `"Backup started"` regardless of
outcome; the Orchestrator likewise catches it and appends
`"Automatic backup failed: ..."`, returning normally. -/
theorem backup_failure_logged_not_raised (st : ManagerState)
    (existingDirs : List String) (logs : List String) (source target : String)
    (hidle : ∀ p, st.current_process = some p → p.exited = true) :
    (∀ detail,
      (start_manual_backup st existingDirs logs source target
          (.failed detail)).returned = "Backup started" ∧
      (start_manual_backup st existingDirs logs source target
          (.failed detail)).sink =
        logs ++ ["Starting backup from " ++ source ++ " to " ++ target,
                 "Backup failed: " ++ detail]) ∧
    (∀ lines code, code ≠ 0 →
      (start_manual_backup st existingDirs logs source target
          (.launched lines code)).returned = "Backup started" ∧
      (start_manual_backup st existingDirs logs source target
          (.launched lines code)).sink =
        logs ++ ["Starting backup from " ++ source ++ " to " ++ target,
                 "Backup failed: " ++
                   errString (.backupFailed code (rsyncCmd source target))]) ∧
    (∀ (d : Device) (table : List (String × String)) (cfg : Config)
        (files : List FileEntry) (oracle : TimeOracle) (home detail : String),
      ((device_callback d table cfg existingDirs true files oracle home st
          (.failed detail) logs).sink.getLast? =
        some ("Automatic backup failed: " ++ detail))) := by
  refine ⟨?_, ?_, ?_⟩
  · intro detail
    unfold start_manual_backup
    rw [perform_backup_eq_body st existingDirs source target _ hidle]
    exact ⟨rfl, by simp [add_log, performBackupBody, errString]⟩
  · intro lines code hcode
    unfold start_manual_backup
    rw [perform_backup_eq_body st existingDirs source target _ hidle]
    refine ⟨rfl, ?_⟩
    unfold performBackupBody
    simp [hcode, add_log]
  · intro d table cfg files oracle home detail
    unfold device_callback
    cases hlook : lookupMountTable table d.device_node with
    | some path =>
      rw [mount_device_found d table cfg existingDirs true path hlook]
      simp only
      rw [perform_backup_eq_body st existingDirs path
        (resolve_target_path d files cfg oracle home) _ hidle]
      simp [add_log, performBackupBody, errString]
    | none =>
      rw [mount_device_fresh d table cfg existingDirs hlook]
      simp only
      rw [perform_backup_eq_body st existingDirs _
        (resolve_target_path d files cfg oracle home) _ hidle]
      simp [add_log, performBackupBody, errString]

/-- Concrete check for the amended C9: the failure is logged rather
than raised on both the manual and the automatic path. -/
theorem backup_failure_logged_not_raised_witness :
    ((start_manual_backup ⟨none⟩ [] [] "/src" "/dst"
        (.failed "tool missing")).returned = "Backup started" ∧
    (start_manual_backup ⟨none⟩ [] [] "/src" "/dst"
        (.failed "tool missing")).sink =
      [] ++ ["Starting backup from " ++ "/src" ++ " to " ++ "/dst",
             "Backup failed: " ++ "tool missing"]) ∧
    (device_callback qualifyingDevice [("/dev/sdb1", "/media/x")]
        ⟨"/media/sd-backup-\x7buuid\x7d", "\x7bdate\x7d"⟩ [] true [] sampleOracle
        "/root" ⟨none⟩ (.failed "tool missing") []).sink.getLast? =
      some ("Automatic backup failed: " ++ "tool missing") := by
  have h := backup_failure_logged_not_raised ⟨none⟩ [] [] "/src" "/dst"
    (fun p hp => by cases hp)
  exact ⟨h.1 "tool missing",
    h.2.2 qualifyingDevice [("/dev/sdb1", "/media/x")]
      ⟨"/media/sd-backup-\x7buuid\x7d", "\x7bdate\x7d"⟩ [] sampleOracle
      "/root" "tool missing"⟩
